import Mathlib

/-!
Verification of the CodexBar Windows bootstrap-and-launch orchestrator
(dev.ps1 and scripts/setup-windows.ps1) against its design document.

Shallow embedding conventions:
* A PATH value (the session `$env:PATH` or the persisted user PATH) is a
  `List Char`; the PowerShell containment test `-like "*$dir*"` is substring
  containment, embedded as `List.IsInfix` (`<:+:`).
* File-system existence checks (`Test-Path`) and command probes
  (`Get-Command`) are oracles: Boolean-valued functions or record fields.
* Exit codes are `Int`; a terminating PowerShell error is a distinct
  terminal outcome.
-/

namespace CodexBar

/-! ## PathRegistry: session and persisted PATH manipulation -/

/-- One conditional PATH prepend, as both halves of `Add-ToUserPath` in
setup-windows.ps1 (lines 33-45) perform it: if the directory does not occur
as a substring of the current PATH value (PowerShell `-notlike "*$dir*"`),
prepend it followed by a separator, otherwise leave the value unchanged. -/
def addDirIfAbsent (d cur : List Char) : List Char :=
  if ¬ (d <:+: cur) then d ++ ';' :: cur else cur

/-- `Add-ToUserPath $dir` from setup-windows.ps1: the first component is the
durable user-level PATH after the call, the second the current session PATH
after the call.  Both are updated by the same guarded prepend. -/
def addToUserPath (d user sess : List Char) : List Char × List Char :=
  (addDirIfAbsent d user, addDirIfAbsent d sess)

/-- One iteration of the session PATH loop of dev.ps1 (lines 40-45): the
directory is prepended only when `Test-Path` reports it exists on disk AND
it is not already a substring of the session PATH. -/
def sessionDirAdd (fs : List Char → Bool) (p path : List Char) : List Char :=
  if fs p = true ∧ ¬ (p <:+: path) then p ++ ';' :: path else path

/-- The directory `$env:USERPROFILE\.cargo\bin` of dev.ps1, as a function of
the user-profile root. -/
def cargoBinDir (userProfile : List Char) : List Char :=
  userProfile ++ ("\\.cargo\\bin".toList)

/-- The directory `C:\mingw64\bin` of dev.ps1. -/
def mingwBinDir : List Char := "C:\\mingw64\\bin".toList

/-- The `$knownPaths` array of dev.ps1 (line 40), in source order. -/
def knownPaths (userProfile : List Char) : List (List Char) :=
  [cargoBinDir userProfile, mingwBinDir]

/-- The whole session PATH setup loop of dev.ps1 (lines 40-45). -/
def sessionPathInit (fs : List Char → Bool) (userProfile path : List Char) :
    List Char :=
  (knownPaths userProfile).foldl (fun acc p => sessionDirAdd fs p acc) path

/-- The entries of a PATH value: the separator-delimited components. -/
def pathEntries (path : List Char) : List (List Char) :=
  path.splitOn ';'

/-! ### Helper lemmas about the guarded prepend -/

lemma sub_append_self (d t : List Char) : d <:+: d ++ t :=
  ⟨[], t, rfl⟩

lemma sub_cons {α : Type} (a : α) {x l : List α} (h : x <:+: l) : x <:+: a :: l := by
  obtain ⟨s, t, hst⟩ := h
  exact ⟨a :: s, t, by rw [List.cons_append, List.cons_append, hst]⟩

lemma addDirIfAbsent_of_present {d cur : List Char} (h : d <:+: cur) :
    addDirIfAbsent d cur = cur := by
  unfold addDirIfAbsent
  rw [if_neg (not_not_intro h)]

lemma addDirIfAbsent_of_absent {d cur : List Char} (h : ¬ d <:+: cur) :
    addDirIfAbsent d cur = d ++ ';' :: cur := by
  unfold addDirIfAbsent
  rw [if_pos h]

lemma addDirIfAbsent_contains (d cur : List Char) :
    d <:+: addDirIfAbsent d cur := by
  by_cases h : d <:+: cur
  · rw [addDirIfAbsent_of_present h]; exact h
  · rw [addDirIfAbsent_of_absent h]; exact sub_append_self d (';' :: cur)

lemma addDirIfAbsent_idem (d cur : List Char) :
    addDirIfAbsent d (addDirIfAbsent d cur) = addDirIfAbsent d cur :=
  addDirIfAbsent_of_present (addDirIfAbsent_contains d cur)

lemma sessionDirAdd_idem (fs : List Char → Bool) (p path : List Char) :
    sessionDirAdd fs p (sessionDirAdd fs p path) = sessionDirAdd fs p path := by
  by_cases h : fs p = true ∧ ¬ (p <:+: path)
  · have h1 : sessionDirAdd fs p path = p ++ ';' :: path := by
      unfold sessionDirAdd; rw [if_pos h]
    rw [h1]
    unfold sessionDirAdd
    rw [if_neg]
    intro hc
    exact hc.2 (sub_append_self p (';' :: path))
  · have h1 : sessionDirAdd fs p path = path := by
      unfold sessionDirAdd; rw [if_neg h]
    rw [h1, h1]

/-! ### Entries of a PATH value after a prepend -/

lemma splitOnP_entries {α : Type} (p : α → Bool) (l : List α) :
    (∀ x ∈ l.splitOnP p, x <:+: l) ∧
    (∀ hd tl, l.splitOnP p = hd :: tl → hd <+: l) := by
  induction l with
  | nil =>
    constructor
    · intro x hx
      rw [List.splitOnP_nil, List.mem_singleton] at hx
      subst hx
      exact ⟨[], [], rfl⟩
    · intro hd tl h
      rw [List.splitOnP_nil] at h
      cases h
      exact ⟨[], rfl⟩
  | cons a l ih =>
    obtain ⟨ih1, ih2⟩ := ih
    by_cases hpa : p a = true
    · rw [List.splitOnP_cons, if_pos hpa]
      constructor
      · intro x hx
        rcases List.mem_cons.mp hx with rfl | hx'
        · exact ⟨[], a :: l, rfl⟩
        · exact sub_cons a (ih1 x hx')
      · intro hd tl h
        injection h with h1 _
        subst h1
        exact ⟨a :: l, rfl⟩
    · cases hsp : l.splitOnP p with
      | nil => exact absurd hsp (List.splitOnP_ne_nil p l)
      | cons h0 t0 =>
        rw [List.splitOnP_cons, if_neg hpa, hsp, List.modifyHead]
        have hpre : h0 <+: l := ih2 h0 t0 hsp
        constructor
        · intro x hx
          rcases List.mem_cons.mp hx with rfl | hx'
          · obtain ⟨t, ht⟩ := hpre
            exact ⟨[], t, by rw [List.nil_append, List.cons_append, ht]⟩
          · refine sub_cons a (ih1 x ?_)
            rw [hsp]
            exact List.mem_cons_of_mem h0 hx'
        · intro hd tl h
          injection h with h1 _
          subst h1
          obtain ⟨t, ht⟩ := hpre
          exact ⟨t, by rw [List.cons_append, ht]⟩

lemma pathEntries_prepend {d : List Char} (cur : List Char) (hd : ';' ∉ d) :
    pathEntries (d ++ ';' :: cur) = d :: pathEntries cur := by
  unfold pathEntries
  show (d ++ ';' :: cur).splitOnP (fun c => c == ';') =
    d :: cur.splitOnP (fun c => c == ';')
  refine List.splitOnP_first (fun c => c == ';') d ?_ ';' (by simp) cur
  intro x hx hbeq
  exact hd (eq_of_beq hbeq ▸ hx)

lemma pathEntries_count_absent {d cur : List Char} (h : ¬ d <:+: cur) :
    (pathEntries cur).count d = 0 := by
  rw [List.count_eq_zero]
  intro hmem
  exact h ((splitOnP_entries (fun c => c == ';') cur).1 d hmem)

/-! ## Paths and the binary resolver of dev.ps1 -/

/-- `Join-Path a b` on Windows. -/
def joinPath (a b : String) : String := a ++ "\\" ++ b

/-- `$RustDir = Join-Path $RepoRoot "rust"` (dev.ps1 line 37). -/
def rustSubdir (root : String) : String := joinPath root "rust"

/-- `Join-Path $RepoRoot "scripts\setup-windows.ps1"` (dev.ps1 line 60). -/
def setupScriptPath (root : String) : String :=
  joinPath root "scripts\\setup-windows.ps1"

/-- The binary location selected by dev.ps1 lines 100-104: exactly one
path per build profile. -/
def binaryPath (root : String) (release : Bool) : String :=
  joinPath (rustSubdir root)
    (if release then "target\\release\\codexbar.exe"
     else "target\\debug\\codexbar.exe")

/-- The ordered list of candidate artifact locations the resolver of
dev.ps1 checks for a profile.  The source checks a single hard-coded
location (lines 100-110), so the list is a singleton. -/
def candidatePaths (root : String) (release : Bool) : List String :=
  [binaryPath root release]

/-- The binary-resolution block of dev.ps1 (lines 100-110): `Test-Path` on
the profile's one binary location; on success the path is used, otherwise
the script reports the path it checked and exits 1. -/
def resolveBinary (root : String) (release : Bool) (fs : String → Bool) :
    Except (List String) String :=
  if fs (binaryPath root release) then Except.ok (binaryPath root release)
  else Except.error (candidatePaths root release)

/-! ## Launch argument composition (dev.ps1 lines 112-119) -/

/-- The fixed subcommand token `"menubar"`. -/
def subcommandToken : String := "menubar"

/-- The verbosity token `"-v"`. -/
def verbosityToken : String := "-v"

/-- `$args_ = @("menubar"); if ($Verbose) { $args_ = @("-v") + $args_ }`. -/
def launchArgs (verbose : Bool) : List String :=
  if verbose then verbosityToken :: [subcommandToken] else [subcommandToken]

/-- `& $binary @args_`: the process started and its argument vector. -/
def launch (binary : String) (verbose : Bool) : String × List String :=
  (binary, launchArgs verbose)

/-! ## The pipeline state machine of dev.ps1 -/

/-- Run configuration from the command-line switches of dev.ps1. -/
structure RunConfig where
  release : Bool
  skipBuild : Bool
  verbose : Bool
deriving DecidableEq

/-- Working-directory state: the current location plus the location stack
maintained by `Push-Location` / `Pop-Location`. -/
structure LocState where
  cwd : String
  stack : List String
deriving DecidableEq

/-- `Push-Location d`: save the current location and move to `d`. -/
def pushLocation (d : String) (s : LocState) : LocState :=
  ⟨d, s.cwd :: s.stack⟩

/-- `Pop-Location`: return to the most recently pushed location. -/
def popLocation (s : LocState) : LocState :=
  match s.stack with
  | [] => s
  | c :: rest => ⟨c, rest⟩

/-- Outcome of the `cargo build` invocation: a numeric exit code, or a
terminating PowerShell error raised during the invocation. -/
inductive CargoOutcome where
  | completed (code : Int)
  | raised
deriving DecidableEq

/-- How the whole script terminates: a numeric process exit code, or an
uncaught terminating error. -/
inductive PipeExit where
  | normal (code : Int)
  | thrown
deriving DecidableEq

/-- Everything external the script consults, fixed per run.  The re-check
probes (`cargoFound2`, `dlltoolFound2`) are separate fields from the
initial probes because installation can change what resolves.
`setupExitStatus` is the exit status the setup script reports; dev.ps1
never consults it. -/
structure World where
  fs : String → Bool
  cargoFound1 : Bool
  dlltoolFound1 : Bool
  setupExitStatus : Int
  cargoFound2 : Bool
  dlltoolFound2 : Bool
  cargoBuild : CargoOutcome
  launchExitCode : Int

/-- Initial prerequisite probe: `$hasCargo -and $hasDlltool` (lines 49-52). -/
def prereqOk1 (w : World) : Bool := w.cargoFound1 && w.dlltoolFound1

/-- Post-setup re-check probe (lines 68-70). -/
def prereqOk2 (w : World) : Bool := w.cargoFound2 && w.dlltoolFound2

/-- Observable account of one run: how the script terminated, which stages
executed, what was launched, and the final working-directory state. -/
structure RunTrace where
  exit : PipeExit
  setupRan : Bool
  buildRan : Bool
  resolveRan : Bool
  launchRan : Bool
  launched : Option (String × List String)
  finalLoc : LocState
deriving DecidableEq

/-- Result of the build stage (dev.ps1 lines 81-96): whether the pipeline
halts and with what, the working-directory state afterwards, and the
directory the build command ran in. -/
structure BuildPhaseResult where
  halt : Option PipeExit
  loc : LocState
  ranIn : String
deriving DecidableEq

/-- The build stage of dev.ps1 (lines 81-96): `Push-Location $RustDir`,
`cargo build ...` and `if ($LASTEXITCODE -ne 0) { exit $LASTEXITCODE }`
inside `try`, with `Pop-Location` in `finally`.  PowerShell runs the
`finally` block on normal completion, on `exit`, and on a terminating
error, so every branch pops the pushed location. -/
def buildPhase (out : CargoOutcome) (root : String) (loc : LocState) :
    BuildPhaseResult :=
  let pushed := pushLocation (rustSubdir root) loc
  match out with
  | CargoOutcome.completed n =>
      if n = 0 then ⟨none, popLocation pushed, pushed.cwd⟩
      else ⟨some (PipeExit.normal n), popLocation pushed, pushed.cwd⟩
  | CargoOutcome.raised => ⟨some PipeExit.thrown, popLocation pushed, pushed.cwd⟩

/-- The Run section of dev.ps1 (lines 100-122): resolve the binary for the
profile, exit 1 if it is missing, otherwise launch it and finish with the
launched process's exit code. -/
def resolveAndLaunch (cfg : RunConfig) (root : String) (w : World)
    (loc : LocState) (setupRan buildRan : Bool) : RunTrace :=
  match resolveBinary root cfg.release w.fs with
  | Except.error _ =>
      ⟨PipeExit.normal 1, setupRan, buildRan, true, false, none, loc⟩
  | Except.ok b =>
      ⟨PipeExit.normal w.launchExitCode, setupRan, buildRan, true, true,
        some (launch b cfg.verbose), loc⟩

/-- The tail of the pipeline after the prerequisite section: the build
stage unless `-SkipBuild`, then resolve and launch. -/
def runRest (cfg : RunConfig) (root : String) (w : World) (loc : LocState)
    (setupRan : Bool) : RunTrace :=
  if cfg.skipBuild then resolveAndLaunch cfg root w loc setupRan false
  else
    let b := buildPhase w.cargoBuild root loc
    match b.halt with
    | some e => ⟨e, setupRan, true, false, false, none, b.loc⟩
    | none => resolveAndLaunch cfg root w b.loc setupRan true

/-- The whole dev.ps1 pipeline: session PATH setup is modelled separately
(`sessionPathInit`); prerequisite probes are the `World` oracles.  If a
tool is missing the setup script is run (its reported exit status is not
consulted) and the probes are re-checked; if a tool is still missing, or
the setup script is absent, the run exits 1 before any build. -/
def devPipeline (cfg : RunConfig) (root : String) (w : World)
    (loc : LocState) : RunTrace :=
  if prereqOk1 w then runRest cfg root w loc false
  else if w.fs (setupScriptPath root) then
    if prereqOk2 w then runRest cfg root w loc true
    else ⟨PipeExit.normal 1, true, false, false, false, none, loc⟩
  else ⟨PipeExit.normal 1, false, false, false, false, none, loc⟩

/-! ## Installer download steps (setup-windows.ps1) -/

/-- The rustup installer fetch target (setup-windows.ps1 line 56). -/
def rustupUrl : String := "https://win.rustup.rs/x86_64"

/-- `$WinLibsVersion` (setup-windows.ps1 line 26). -/
def winlibsVersion : String := "15.2.0posix-13.0.0-ucrt-r6"

/-- `$WinLibsZip` (setup-windows.ps1 line 27). -/
def winlibsZipName : String :=
  "winlibs-x86_64-posix-seh-gcc-15.2.0-mingw-w64ucrt-13.0.0-r6.zip"

/-- `$WinLibsUrl` (setup-windows.ps1 line 28). -/
def winlibsUrl : String :=
  "https://github.com/brechtsanders/winlibs_mingw/releases/download/"
    ++ winlibsVersion ++ "/" ++ winlibsZipName

/-- Presence of the two downloadable artifacts at their `$env:TEMP`
locations. -/
structure TempFS where
  rustupInit : Bool
  winlibsZip : Bool
deriving DecidableEq

/-- State threaded through an install step: the temp file system plus the
list of URLs fetched so far (in order). -/
structure InstallTrace where
  fs : TempFS
  downloads : List String
deriving DecidableEq

/-- `Remove-Item ... -ErrorAction SilentlyContinue`: total (never raises,
even when the item is already absent); afterwards the item is absent. -/
def removeItemSilent (_present : Bool) : Bool := false

/-- The rustup install branch of setup-windows.ps1 (lines 55-60):
`Invoke-WebRequest` to `$env:TEMP\rustup-init.exe` unconditionally, run the
installer, then remove the downloaded file silently. -/
def rustupInstall (s : InstallTrace) : InstallTrace :=
  let s1 : InstallTrace :=
    ⟨⟨true, s.fs.winlibsZip⟩, s.downloads ++ [rustupUrl]⟩
  ⟨⟨removeItemSilent s1.fs.rustupInit, s1.fs.winlibsZip⟩, s1.downloads⟩

/-- The WinLibs download-and-extract branch of setup-windows.ps1 (lines
87-96): download to `$env:TEMP\$WinLibsZip` only if not already present
there, `Expand-Archive`, then remove the archive silently. -/
def winlibsFetchExtract (s : InstallTrace) : InstallTrace :=
  let s1 : InstallTrace :=
    if s.fs.winlibsZip then s
    else ⟨⟨s.fs.rustupInit, true⟩, s.downloads ++ [winlibsUrl]⟩
  ⟨⟨s1.fs.rustupInit, removeItemSilent s1.fs.winlibsZip⟩, s1.downloads⟩

/-! ## Supporting lemmas for the pipeline theorems -/

lemma pop_push (d : String) (loc : LocState) :
    popLocation (pushLocation d loc) = loc := rfl

lemma runRest_buildFail (cfg : RunConfig) (root : String) (w : World)
    (loc : LocState) (sr : Bool) (n : Int) (hskip : cfg.skipBuild = false)
    (hbuild : w.cargoBuild = CargoOutcome.completed n) (hn : n ≠ 0) :
    runRest cfg root w loc sr =
      ⟨PipeExit.normal n, sr, true, false, false, none, loc⟩ := by
  simp [runRest, hskip, buildPhase, hbuild, hn, pop_push]

/-- Concrete run configuration used by witnesses: debug profile, build not
skipped, not verbose. -/
def cfgDefault : RunConfig := ⟨false, false, false⟩

/-- Concrete starting location used by witnesses. -/
def locHome : LocState := ⟨"C:\\home", []⟩

/-- Concrete world where both tools resolve and the build fails with exit
code 2. -/
def worldA : World :=
  ⟨fun _ => true, true, true, 0, true, true, CargoOutcome.completed 2, 0⟩

/-- Concrete world where cargo is missing before and after setup and the
setup script exists. -/
def worldB : World :=
  ⟨fun _ => true, false, true, 0, false, true, CargoOutcome.completed 0, 0⟩

/-- Concrete world where cargo is missing at first but resolves after
setup. -/
def worldC : World :=
  ⟨fun _ => true, false, true, 0, true, true, CargoOutcome.completed 0, 0⟩

/-! ## Claim theorems -/

/-- Claim C1 (amended): for every profile the resolver of dev.ps1 checks a
single candidate path; it returns that path when it exists on the
filesystem, and when it does not exist it fails with an error carrying the
full (one-element) list of paths that were checked. -/
theorem resolveSingleCandidate (root : String) (release : Bool)
    (fs : String → Bool) :
    (candidatePaths root release).length = 1 ∧
    (fs (binaryPath root release) = true →
      resolveBinary root release fs = Except.ok (binaryPath root release)) ∧
    (fs (binaryPath root release) = false →
      resolveBinary root release fs =
        Except.error (candidatePaths root release)) := by
  refine ⟨rfl, ?_, ?_⟩ <;> intro h <;> simp [resolveBinary, h]

/-- Claim C1 witness: concrete instances of both resolver outcomes. -/
theorem resolveSingleCandidate_witness :
    resolveBinary "C:\\CodexBar" true (fun _ => true) =
      Except.ok (binaryPath "C:\\CodexBar" true) ∧
    resolveBinary "C:\\CodexBar" false (fun _ => false) =
      Except.error (candidatePaths "C:\\CodexBar" false) :=
  ⟨(resolveSingleCandidate "C:\\CodexBar" true (fun _ => true)).2.1 rfl,
   (resolveSingleCandidate "C:\\CodexBar" false (fun _ => false)).2.2 rfl⟩

/-- Claim C1 counterexample: each profile's candidate list has exactly one
element, so there is never a two-element candidate list [A, B], and a
failed resolution reports exactly one checked path, never two. -/
theorem resolveNoSecondCandidate :
    (candidatePaths "C:\\CodexBar" true).length = 1 ∧
    (candidatePaths "C:\\CodexBar" false).length = 1 ∧
    ¬ 2 ≤ (candidatePaths "C:\\CodexBar" true).length ∧
    resolveBinary "C:\\CodexBar" true (fun _ => false) =
      Except.error [binaryPath "C:\\CodexBar" true] :=
  ⟨rfl, rfl, by decide, rfl⟩

/-- Claim C2: when the build is not skipped and the build system completes
with a non-zero exit code n, the pipeline terminates with exit code n and
neither the binary-resolution step nor the launch step executes. -/
theorem buildFailureStops (cfg : RunConfig) (root : String) (w : World)
    (loc : LocState) (n : Int) (hskip : cfg.skipBuild = false)
    (hbuild : w.cargoBuild = CargoOutcome.completed n) (hn : n ≠ 0)
    (hran : (devPipeline cfg root w loc).buildRan = true) :
    (devPipeline cfg root w loc).exit = PipeExit.normal n ∧
    (devPipeline cfg root w loc).resolveRan = false ∧
    (devPipeline cfg root w loc).launchRan = false := by
  by_cases h1 : prereqOk1 w
  · rw [devPipeline, if_pos h1, runRest_buildFail cfg root w loc false n hskip hbuild hn]
    exact ⟨rfl, rfl, rfl⟩
  · by_cases h2 : w.fs (setupScriptPath root)
    · by_cases h3 : prereqOk2 w
      · rw [devPipeline, if_neg h1, if_pos h2, if_pos h3,
          runRest_buildFail cfg root w loc true n hskip hbuild hn]
        exact ⟨rfl, rfl, rfl⟩
      · rw [devPipeline, if_neg h1, if_pos h2, if_neg h3] at hran
        exact absurd hran (by simp)
    · rw [devPipeline, if_neg h1, if_neg h2] at hran
      exact absurd hran (by simp)

/-- Claim C2 witness: with both tools present and a build exiting 2, the
pipeline exits 2 without resolving or launching. -/
theorem buildFailureStops_witness :
    (devPipeline cfgDefault "C:\\r" worldA locHome).exit = PipeExit.normal 2 ∧
    (devPipeline cfgDefault "C:\\r" worldA locHome).resolveRan = false ∧
    (devPipeline cfgDefault "C:\\r" worldA locHome).launchRan = false :=
  buildFailureStops cfgDefault "C:\\r" worldA locHome 2 rfl rfl
    (by decide) rfl

/-- Claim C3 (amended): a second application of the guarded PATH prepend
(either variant) with the same directory is a no-op, so a directory is
never appended twice; and when the directory does not already occur as a
substring of the initial PATH value (and contains no separator), the
resulting PATH has exactly one entry equal to it.  When the directory
already occurs merely as a substring of some other entry, no entry equal
to it need exist at all (see the counterexample). -/
theorem pathAddTwice (fs : List Char → Bool) (d cur : List Char) :
    addDirIfAbsent d (addDirIfAbsent d cur) = addDirIfAbsent d cur ∧
    sessionDirAdd fs d (sessionDirAdd fs d cur) = sessionDirAdd fs d cur ∧
    (¬ (d <:+: cur) → ';' ∉ d →
      (pathEntries (addDirIfAbsent d (addDirIfAbsent d cur))).count d = 1) := by
  refine ⟨addDirIfAbsent_idem d cur, sessionDirAdd_idem fs d cur, ?_⟩
  intro habs hsep
  rw [addDirIfAbsent_idem d cur, addDirIfAbsent_of_absent habs,
    pathEntries_prepend cur hsep, List.count_cons]
  simp [pathEntries_count_absent habs]

/-- Claim C3 witness: adding a fresh directory twice yields one entry. -/
theorem pathAddTwice_witness :
    addDirIfAbsent ['a'] (addDirIfAbsent ['a'] ['b']) =
      addDirIfAbsent ['a'] ['b'] ∧
    (pathEntries (addDirIfAbsent ['a'] (addDirIfAbsent ['a'] ['b']))).count
      ['a'] = 1 :=
  ⟨(pathAddTwice (fun _ => true) ['a'] ['b']).1,
   (pathAddTwice (fun _ => true) ['a'] ['b']).2.2 (by decide) (by decide)⟩

/-- Claim C3 counterexample: with directory "ab" and initial PATH "xab"
(the directory occurs as a substring of an existing entry but is not an
entry), two applications of the add operation leave the PATH unchanged and
the directory occurs zero times as an entry, not exactly once. -/
theorem pathAddTwiceSubstringCollision :
    addDirIfAbsent ['a', 'b'] (addDirIfAbsent ['a', 'b'] ['x', 'a', 'b']) =
      ['x', 'a', 'b'] ∧
    (pathEntries (addDirIfAbsent ['a', 'b']
      (addDirIfAbsent ['a', 'b'] ['x', 'a', 'b']))).count ['a', 'b'] ≠ 1 := by
  decide

/-- Claim C4: for every binary path, launching with verbose = true produces
exactly the argument vector [verbosityToken, subcommandToken], and with
verbose = false exactly [subcommandToken]. -/
theorem launchArgsSpec (p : String) :
    launch p true = (p, [verbosityToken, subcommandToken]) ∧
    launch p false = (p, [subcommandToken]) :=
  ⟨rfl, rfl⟩

/-- Claim C5: if a tool is missing at the initial check, the setup script
runs, and the re-check still reports a tool missing, then the pipeline
exits 1 and neither build, resolution nor launch executes. -/
theorem stillMissingAfterSetup (cfg : RunConfig) (root : String) (w : World)
    (loc : LocState) (h1 : prereqOk1 w = false)
    (hsetup : (devPipeline cfg root w loc).setupRan = true)
    (h2 : prereqOk2 w = false) :
    (devPipeline cfg root w loc).exit = PipeExit.normal 1 ∧
    (devPipeline cfg root w loc).buildRan = false ∧
    (devPipeline cfg root w loc).resolveRan = false ∧
    (devPipeline cfg root w loc).launchRan = false := by
  by_cases hfs : w.fs (setupScriptPath root)
  · rw [devPipeline, if_neg (by simp [h1]), if_pos hfs, if_neg (by simp [h2])]
    exact ⟨rfl, rfl, rfl, rfl⟩
  · rw [devPipeline, if_neg (by simp [h1]), if_neg hfs] at hsetup
    exact absurd hsetup (by simp)

/-- Claim C5 witness: cargo missing before and after setup makes the run
exit 1 with no build. -/
theorem stillMissingAfterSetup_witness :
    (devPipeline cfgDefault "C:\\r" worldB locHome).exit = PipeExit.normal 1 ∧
    (devPipeline cfgDefault "C:\\r" worldB locHome).buildRan = false ∧
    (devPipeline cfgDefault "C:\\r" worldB locHome).resolveRan = false ∧
    (devPipeline cfgDefault "C:\\r" worldB locHome).launchRan = false :=
  stillMissingAfterSetup cfgDefault "C:\\r" worldB locHome rfl rfl rfl

/-- Claim C6: the build stage runs the build command in the dependency
project's root directory and restores the prior working-directory state on
every exit path: successful build, non-zero build exit, and a terminating
error during the invocation. -/
theorem buildPhaseFrame (out : CargoOutcome) (root : String) (loc : LocState) :
    (buildPhase out root loc).loc = loc ∧
    (buildPhase out root loc).ranIn = rustSubdir root := by
  obtain ⟨c, st⟩ := loc
  cases out with
  | completed n =>
    by_cases hn : n = 0 <;>
      simp [buildPhase, hn, pushLocation, popLocation]
  | raised => simp [buildPhase, pushLocation, popLocation]

/-- Claim C7 (amended): the WinLibs step downloads only when the archive is
not already cached in the temp location, while the rustup-init step always
downloads regardless of any cached copy; both steps remove their artifact
afterwards, and the silent removal also succeeds (as a no-op) on an absent
artifact. -/
theorem installFetchPolicy (s : InstallTrace) :
    (s.fs.winlibsZip = true →
      (winlibsFetchExtract s).downloads = s.downloads) ∧
    (s.fs.winlibsZip = false →
      (winlibsFetchExtract s).downloads = s.downloads ++ [winlibsUrl]) ∧
    (winlibsFetchExtract s).fs.winlibsZip = false ∧
    (rustupInstall s).downloads = s.downloads ++ [rustupUrl] ∧
    (rustupInstall s).fs.rustupInit = false ∧
    removeItemSilent false = false := by
  refine ⟨?_, ?_, rfl, rfl, rfl, rfl⟩ <;>
    intro h <;> simp [winlibsFetchExtract, h]

/-- Claim C7 witness: concrete cached and uncached WinLibs runs. -/
theorem installFetchPolicy_witness :
    (winlibsFetchExtract ⟨⟨false, true⟩, []⟩).downloads = [] ∧
    (winlibsFetchExtract ⟨⟨false, false⟩, []⟩).downloads = [winlibsUrl] :=
  ⟨(installFetchPolicy ⟨⟨false, true⟩, []⟩).1 rfl,
   (installFetchPolicy ⟨⟨false, false⟩, []⟩).2.1 rfl⟩

/-- Claim C7 counterexample: with rustup-init already present in the temp
cache, the rustup install step still performs its download. -/
theorem rustupFetchIgnoresCache :
    (rustupInstall ⟨⟨true, false⟩, []⟩).downloads = [rustupUrl] ∧
    (rustupInstall ⟨⟨true, false⟩, []⟩).downloads ≠ [] :=
  ⟨rfl, by simp [rustupInstall]⟩

/-- Claim C8: Add-ToUserPath updates the durable user PATH only when the
directory is not already contained in it (in the code's substring sense),
additionally performs the session-PATH add, and afterwards the directory
is contained in both the durable user PATH and the session PATH. -/
theorem addToUserPathSpec (d user sess : List Char) :
    ((d <:+: user) → (addToUserPath d user sess).1 = user) ∧
    (¬ (d <:+: user) → (addToUserPath d user sess).1 = d ++ ';' :: user) ∧
    d <:+: (addToUserPath d user sess).1 ∧
    d <:+: (addToUserPath d user sess).2 ∧
    (addToUserPath d user sess).2 = addDirIfAbsent d sess :=
  ⟨fun h => addDirIfAbsent_of_present h,
   fun h => addDirIfAbsent_of_absent h,
   addDirIfAbsent_contains d user,
   addDirIfAbsent_contains d sess,
   rfl⟩

/-- Claim C8 witness: concrete contained and fresh directories. -/
theorem addToUserPathSpec_witness :
    (addToUserPath ['a'] ['a'] ['b']).1 = ['a'] ∧
    (addToUserPath ['a'] ['x'] ['b']).1 = ['a', ';', 'x'] ∧
    ['a'] <:+: (addToUserPath ['a'] ['x'] ['b']).2 :=
  ⟨(addToUserPathSpec ['a'] ['a'] ['b']).1 (by decide),
   (addToUserPathSpec ['a'] ['x'] ['b']).2.1 (by decide),
   (addToUserPathSpec ['a'] ['x'] ['b']).2.2.2.1⟩

/-- Claim C9: the session PATH setup of dev.ps1 processes exactly the two
known tool directories in order, and each is prepended only when it exists
on disk and is not already contained in the session PATH; a directory that
does not exist on disk leaves the session PATH unchanged even when the
PATH does not contain it. -/
theorem sessionPathSetupSpec (fs : List Char → Bool)
    (userProfile path : List Char) :
    sessionPathInit fs userProfile path =
      sessionDirAdd fs mingwBinDir
        (sessionDirAdd fs (cargoBinDir userProfile) path) ∧
    (∀ p q, fs p = false → sessionDirAdd fs p q = q) ∧
    (∀ p q, p <:+: q → sessionDirAdd fs p q = q) ∧
    (∀ p q, fs p = true → ¬ (p <:+: q) →
      sessionDirAdd fs p q = p ++ ';' :: q) := by
  refine ⟨rfl, ?_, ?_, ?_⟩
  · intro p q hp
    unfold sessionDirAdd
    rw [if_neg]
    rintro ⟨hc, -⟩
    rw [hp] at hc
    exact Bool.false_ne_true hc
  · intro p q hq
    unfold sessionDirAdd
    rw [if_neg]
    rintro ⟨-, hc⟩
    exact hc hq
  · intro p q hp hq
    unfold sessionDirAdd
    rw [if_pos ⟨hp, hq⟩]

/-- Claim C9 witness: a missing directory is not added even to a PATH that
does not contain it; an existing fresh directory is prepended; a contained
directory is left alone. -/
theorem sessionPathSetupSpec_witness :
    sessionDirAdd (fun _ => false) ['a'] ['b'] = ['b'] ∧
    sessionDirAdd (fun _ => true) ['a'] ['a'] = ['a'] ∧
    sessionDirAdd (fun _ => true) ['a'] ['b'] = ['a', ';', 'b'] :=
  ⟨(sessionPathSetupSpec (fun _ => false) [] []).2.1 ['a'] ['b'] rfl,
   (sessionPathSetupSpec (fun _ => true) [] []).2.2.1 ['a'] ['a'] (by decide),
   (sessionPathSetupSpec (fun _ => true) [] []).2.2.2 ['a'] ['b'] rfl
     (by decide)⟩

/-- Claim C10: the pipeline's behaviour after the installer runs depends
only on the fresh post-install probes, not on the installer's reported
exit status: two runs that differ only in that status produce identical
run traces. -/
theorem setupStatusNoninterference (cfg : RunConfig) (root : String)
    (w : World) (loc : LocState) (e1 e2 : Int) (_hne : e1 ≠ e2) :
    devPipeline cfg root { w with setupExitStatus := e1 } loc =
      devPipeline cfg root { w with setupExitStatus := e2 } loc := by
  cases w
  rfl

/-- Claim C10 witness: installer statuses 0 and 5 give identical traces. -/
theorem setupStatusNoninterference_witness :
    devPipeline cfgDefault "C:\\r" { worldC with setupExitStatus := 0 }
        locHome =
      devPipeline cfgDefault "C:\\r" { worldC with setupExitStatus := 5 }
        locHome :=
  setupStatusNoninterference cfgDefault "C:\\r" worldC locHome 0 5
    (by decide)

end CodexBar
